import Mathlib

/-!
Shallow embedding of the session resource-lifecycle core of `mystmd`
(`packages/myst-cli` session class, source file `src/unnamed/part_000`).

The source is single-threaded cooperative JavaScript: async functions
interleave only at `await` points, so synchronous blocks (such as the
check-and-assign of a memoization slot) execute atomically.  Sequential
models therefore capture the "concurrent callers" behaviour faithfully.

Promises are modelled by identifiers (`Nat`); two callers observe the same
settled outcome exactly when they hold the same promise identifier.
-/

namespace MystSession

/-! ### NetworkGateway: `Session.fetch` (source lines 130-145) -/

/-- Source line 45: `const LOCALHOSTS = ['localhost', '127.0.0.1', '::1'];` -/
def LOCALHOSTS : List String := ["localhost", "127.0.0.1", "::1"]

/-- A value stored in a fetch `init` options object: either an http agent
(identified by reference) or some other option value. -/
inductive FetchVal where
  | agent (ref : Nat)
  | other (s : String)
deriving DecidableEq, Repr

/-- A fetch options object: key/value entries in insertion order.  In a JS
object literal, a later entry with the same key overrides an earlier one. -/
def FetchOptions := List (String × FetchVal)

instance : DecidableEq FetchOptions := by
  unfold FetchOptions; infer_instance

/-- Property lookup in an options object: the value of the LAST entry with
the given key wins (JS object-literal semantics for `{ a: x, ...init }`). -/
def getOpt : FetchOptions → String → Option FetchVal
  | [], _ => none
  | (k', v) :: rest, k =>
    match getOpt rest k with
    | some w => some w
    | none => if k = k' then some v else none

/-- Source lines 133-137 of `Session.fetch`:

    if (this.proxyAgent && !LOCALHOSTS.includes(urlOnly.hostname)) {
      if (!init) init = {};
      init = { agent: this.proxyAgent, ...init };
      ...
    }

`proxyAgent` is the session's optional proxy agent (by reference); the
result is the `init` actually passed to `nodeFetch` on line 142. -/
def fetchInit (proxyAgent : Option Nat) (hostname : String)
    (init : Option FetchOptions) : Option FetchOptions :=
  match proxyAgent with
  | some p =>
    if LOCALHOSTS.contains hostname then init
    else some (("agent", FetchVal.agent p) :: init.getD [])
  | none => init

/-- The boolean guard of source line 133: the proxy agent is spliced into the
options exactly when this is `true`. -/
def proxyAttached (proxyAgent : Option Nat) (hostname : String) : Bool :=
  proxyAgent.isSome && !(LOCALHOSTS.contains hostname)

/-! #### The stall timer (source lines 138-144)

    const logData = { url: urlOnly, done: false };
    setTimeout(() => {
      if (!logData.done) this.log.info(`... Waiting for response ...`);
    }, 5000);
    const resp = await nodeFetch(url, init);
    logData.done = true;
    return resp;

`logData.done` is set only after the `await` RESOLVES; if `nodeFetch`
rejects, the assignment on line 143 is never reached. -/

/-- One run of the network call inside `fetch`: the time at which the
`nodeFetch` promise settles, and whether it settles successfully. -/
structure FetchAttempt where
  settleTime : Nat
  succeeds : Bool
deriving DecidableEq, Repr

/-- Delay of the one-shot stall timer, source line 141 (milliseconds). -/
def stallDelay : Nat := 5000

/-- State of `logData.done` at time `t`: set (line 143) only when the call
has already settled successfully; a rejection skips line 143. -/
def doneFlagAt (f : FetchAttempt) (t : Nat) : Bool :=
  f.succeeds && decide (f.settleTime ≤ t)

/-- Whether the timer callback (firing once, at `stallDelay`) emits the
"still waiting" diagnostic: it logs iff `logData.done` is still false. -/
def diagnosticEmitted (f : FetchAttempt) : Bool :=
  !(doneFlagAt f stallDelay)

/-- The value `fetch` delivers to its caller: the settled outcome of
`nodeFetch` alone.  The timer callback only logs; it holds no reference that
could cancel or retry the call, so the outcome does not depend on it. -/
def fetchOutcome (f : FetchAttempt) : Bool × Nat :=
  (f.succeeds, f.settleTime)

/-! ### The `Session` state machine

Fields of the class (source lines 76-99, 147-149, 183):
`$logger` and `doiLimiter` are held by reference (modelled as `Nat` ids);
`store = createStore(rootReducer)` is a fresh build-state container per
constructed session (its contents after `reload()` are modelled as a `Nat`
snapshot of the on-disk configuration); `_jupyterSessionManagerPromise` and
`_pluginPromise` are the two memoization slots (promise ids);
`_clones` is bookkeeping only — here its length.
The instrumentation counters (`…FactoryCount`, `teardownCount`) count how
often `createJupyterSessionManager` / `loadPlugins(this)` are invoked and
how often `dispose` schedules `manager?.dispose?.()`. -/

structure Session where
  loggerRef : Nat
  doiLimiterRef : Nat
  storeState : Nat
  jupyterSlot : Option Nat := none
  pluginSlot : Option Nat := none
  jupyterFactoryCount : Nat := 0
  pluginFactoryCount : Nat := 0
  teardownCount : Nat := 0
  nextPromiseId : Nat := 0
  cloneCount : Nat := 0
deriving DecidableEq, Repr

/-- Source lines 210-215:

    jupyterSessionManager(): Promise<SessionManager | undefined> {
      if (this._jupyterSessionManagerPromise === undefined) {
        this._jupyterSessionManagerPromise = this.createJupyterSessionManager();
      }
      return this._jupyterSessionManagerPromise;
    }

The check and the assignment are synchronous (no `await` between them), so
in JS's single-threaded model they form one atomic step; interleaved
"concurrent" callers are exactly sequential calls of this step.  Returns
the (possibly updated) session and the promise id handed to the caller. -/
def jupyterSessionManager (s : Session) : Session × Nat :=
  match s.jupyterSlot with
  | some p => (s, p)
  | none =>
    let p := s.nextPromiseId
    ({ s with jupyterSlot := some p,
              jupyterFactoryCount := s.jupyterFactoryCount + 1,
              nextPromiseId := p + 1 }, p)

/-- Source lines 151-157 (`loadPlugins`): early-return of `_pluginPromise`
when set, otherwise a synchronous assignment of the factory's promise before
any `await`.  Same atomic check-and-assign shape as above. -/
def loadPluginsCall (s : Session) : Session × Nat :=
  match s.pluginSlot with
  | some p => (s, p)
  | none =>
    let p := s.nextPromiseId
    ({ s with pluginSlot := some p,
              pluginFactoryCount := s.pluginFactoryCount + 1,
              nextPromiseId := p + 1 }, p)

/-- Source lines 185-192:

    async clone() {
      const cloneSession = new Session({ logger: this.log, doiLimiter: this.doiLimiter });
      await cloneSession.reload();
      cloneSession._jupyterSessionManagerPromise = this._jupyterSessionManagerPromise;
      this._clones.push(cloneSession);
      return cloneSession;
    }

`diskState` is the project/site configuration read from disk by the clone's
own `reload()`.  The constructor creates a fresh store; only the jupyter
slot is copied (NOT `_pluginPromise`).  Returns (updated origin, clone). -/
def clone (s : Session) (diskState : Nat) : Session × Session :=
  let c : Session :=
    { loggerRef := s.loggerRef
      doiLimiterRef := s.doiLimiterRef
      storeState := diskState
      jupyterSlot := s.jupyterSlot
      pluginSlot := none
      jupyterFactoryCount := 0
      pluginFactoryCount := 0
      teardownCount := 0
      nextPromiseId := s.nextPromiseId
      cloneCount := 0 }
  ({ s with cloneCount := s.cloneCount + 1 }, c)

/-- Source lines 273-278:

    dispose() {
      if (this._jupyterSessionManagerPromise) {
        this._jupyterSessionManagerPromise.then((manager) => manager?.dispose?.());
        this._jupyterSessionManagerPromise = undefined;
      }
    }

Scheduling `manager?.dispose?.()` on the slot's promise is counted by
`teardownCount`; the slot is then cleared.  The body is total — nothing in
it can throw to the caller. -/
def dispose (s : Session) : Session :=
  match s.jupyterSlot with
  | some _ =>
    { s with teardownCount := s.teardownCount + 1, jupyterSlot := none }
  | none => s

/-- `n` successive calls of `jupyterSessionManager` on one session,
collecting the promise id each caller observes. -/
def acquireN : Session → Nat → Session × List Nat
  | s, 0 => (s, [])
  | s, n + 1 =>
    let (s', p) := jupyterSessionManager s
    let (s'', ps) := acquireN s' n
    (s'', p :: ps)

/-- `n` successive calls of `loadPlugins` on one session, collecting the
promise id each caller observes. -/
def loadPluginsN : Session → Nat → Session × List Nat
  | s, 0 => (s, [])
  | s, n + 1 =>
    let (s', p) := loadPluginsCall s
    let (s'', ps) := loadPluginsN s' n
    (s'', p :: ps)

/-- The operations a caller can perform on one session instance (the
`clone` operation records only the effect on the origin). -/
inductive SessionOp where
  | acquire
  | cloneOp (diskState : Nat)
  | disposeOp
deriving DecidableEq, Repr

/-- Effect of one operation on the session it is called on. -/
def applyOp (s : Session) : SessionOp → Session
  | .acquire => (jupyterSessionManager s).1
  | .cloneOp d => (clone s d).1
  | .disposeOp => dispose s

/-- Run a sequence of operations against one session instance. -/
def runOps (s : Session) (ops : List SessionOp) : Session :=
  ops.foldl applyOp s

/-- A freshly constructed session (`new Session()` followed by `reload()`
reading disk state 0), before any acquisition. -/
def initSession : Session :=
  { loggerRef := 0, doiLimiterRef := 0, storeState := 0 }

/-! ### ExecutionBackendAcquirer: `createJupyterSessionManager`
(source lines 217-271) -/

/-- One event of the remote-build stream (`repo.fetch()`): a phase tag, a
message, and — meaningful on `ready` — the server URL and token. -/
structure BinderEvent where
  phase : String
  message : String
  url : String
  token : String
deriving DecidableEq, Repr

/-- The `partialServerSettings` value assembled by the acquirer: base URL,
token, and whether the settings object carries a `dispose()` callback (a
spawned server owned by this session — `partialServerSettings?.dispose?.()`
on line 264 only fires when it does). -/
structure PartialSettings where
  baseUrl : Option String
  token : Option String
  hasDispose : Bool
deriving DecidableEq, Repr

/-- The `SessionManager` built on lines 257-259, retaining the settings it
owns for the disposal hook of lines 262-265. -/
structure Manager where
  settings : Option PartialSettings
deriving DecidableEq, Repr

/-- The `manager.disposed` hook of source lines 262-265:

    manager.disposed.connect(() => {
      kernelManager.dispose();
      partialServerSettings?.dispose?.();
    });

Result: (kernel manager disposed, settings `dispose()` invoked). -/
def disposeManager (m : Manager) : Bool × Bool :=
  (true,
   match m.settings with
   | some ps => ps.hasDispose
   | none => false)

/-- Source lines 222-236: the `for await (const data of repo.fetch())` loop.
Every consumed event is logged (first component); `ready` stores settings
from that event's `url`/`token` and calls `repo.close()`; `failed` throws.

Modelled from the spec: `BinderRepository` (package
`@jupyterhub/binderhub-client`) is not under `src/`; per the spec,
`repo.close()` closes the event stream so no further events are consumed,
hence the `ready` arm terminates the iteration. -/
def consumeBinderEvents :
    List BinderEvent → List BinderEvent × Except String (Option PartialSettings)
  | [] => ([], Except.ok none)
  | e :: rest =>
    if e.phase = "ready" then
      ([e], Except.ok (some { baseUrl := some e.url, token := some e.token,
                              hasDispose := false }))
    else if e.phase = "failed" then
      ([e], Except.error "Trying to build the repository failed")
    else
      let r := consumeBinderEvents rest
      (e :: r.1, r.2)

/-- The ambient inputs of one acquisition run: the environment variables
read on lines 220, 239, 241-242, the remote-build event stream, and the
outcomes of the fallible collaborator stages (`findExistingJupyterServer`,
`launchJupyterServer`, settings/manager construction). -/
structure AcquireEnv where
  binderRepoSpec : Option String
  binderEvents : List BinderEvent
  jupyterBaseUrl : Option String
  jupyterToken : Option String
  findExisting : Except String (Option PartialSettings)
  launch : Except String PartialSettings
  settingsFault : Bool
deriving Repr

/-- Source lines 219-255: strategy selection for `partialServerSettings`.
Priority: remote build (BINDER_REPO_SPEC) > explicit endpoint
(JUPYTER_BASE_URL/JUPYTER_TOKEN) > discovery of a running server > spawn. -/
def acquireSettings (env : AcquireEnv) : Except String (Option PartialSettings) :=
  match env.binderRepoSpec with
  | some _ => (consumeBinderEvents env.binderEvents).2
  | none =>
    match env.jupyterBaseUrl with
    | some u =>
      Except.ok (some { baseUrl := some u, token := env.jupyterToken,
                        hasDispose := false })
    | none =>
      match env.findExisting with
      | Except.error e => Except.error e
      | Except.ok (some existing) => Except.ok (some existing)
      | Except.ok none => env.launch.map (fun st => some st)

/-- Source lines 217-271, the whole `createJupyterSessionManager` body: the
`try` block builds the manager; `catch (err)` logs
`'Unable to instantiate connection to Jupyter Server'` and returns
`undefined`.  Result: (manager or `undefined`, whether an error was
logged).  The return type is total — a rejection can never escape. -/
def createJupyterSessionManager (env : AcquireEnv) : Option Manager × Bool :=
  match acquireSettings env with
  | Except.error _ => (none, true)
  | Except.ok ps =>
    if env.settingsFault then (none, true) else (some { settings := ps }, false)

/-- Whether any stage of the acquisition raises (remote build `failed`,
discovery/spawn rejection, or settings/manager construction fault). -/
def anyStageFails (env : AcquireEnv) : Bool :=
  match acquireSettings env with
  | Except.error _ => true
  | Except.ok _ => env.settingsFault

/-! ### SessionHierarchy diagnostics: `getAllWarnings` (source lines 194-208)

    getAllWarnings(ruleId: RuleId) {
      const stringWarnings: string[] = [];
      const warnings: (BuildWarning & { file: string })[] = [];
      [this, ...this._clones].forEach((session: ISession) => {
        const sessionWarnings = selectors.selectFileWarningsByRule(session.store.getState(), ruleId);
        sessionWarnings.forEach((warning) => {
          const stringWarning = JSON.stringify(Object.entries(warning).sort());
          if (!stringWarnings.includes(stringWarning)) {
            stringWarnings.push(stringWarning);
            warnings.push(warning);
          }
        });
      });
      return warnings;
    }

A warning is its `Object.entries` list: field/value string pairs in the
object's own insertion order (object keys are unique).  `JSON.stringify` is
injective on sorted entry lists, so the dedup key is modelled as the sorted
entry list itself. -/

/-- A warning record as `Object.entries` sees it. -/
def Warning := List (String × String)

instance : DecidableEq Warning := by
  unfold Warning; infer_instance

/-- Code-point comparison of character lists (the order underlying JS
string comparison). -/
def charListLe : List Char → List Char → Bool
  | [], _ => true
  | _ :: _, [] => false
  | c :: cs, d :: ds =>
    if c.toNat < d.toNat then true
    else if d.toNat < c.toNat then false
    else charListLe cs ds

/-- Code-point comparison of strings. -/
def strLe (a b : String) : Bool := charListLe a.toList b.toList

/-- The comparison under which entry pairs are sorted (JS
`Array.prototype.sort` compares the pairs' string forms, i.e. key first,
then value). -/
def pairLe (a b : String × String) : Bool :=
  if a.1 = b.1 then strLe a.2 b.2 else strLe a.1 b.1

/-- Insert one entry into an already-sorted entry list. -/
def insertPair (x : String × String) :
    List (String × String) → List (String × String)
  | [] => [x]
  | y :: ys => if pairLe x y then x :: y :: ys else y :: insertPair x ys

/-- `Object.entries(warning).sort()`: the warning's canonical (dedup) form. -/
def canonical (w : Warning) : List (String × String) :=
  w.foldr insertPair []

/-- One iteration of the inner `forEach`: check the canonical form against
`stringWarnings`, pushing (appending) to both accumulators when unseen. -/
def warnStep (acc : List (List (String × String)) × List Warning)
    (w : Warning) : List (List (String × String)) × List Warning :=
  let key := canonical w
  if acc.1.contains key then acc
  else (acc.1 ++ [key], acc.2 ++ [w])

/-- The whole `getAllWarnings` walk: the warning lists of
`[this, ...this._clones]` (origin first, then clones in registration order,
each in its native order, already filtered to the requested rule id). -/
def getAllWarnings (sessionWarnings : List (List Warning)) : List Warning :=
  (sessionWarnings.foldl (fun acc ws => ws.foldl warnStep acc) ([], [])).2

/-- Reference dedup written from the spec's words: walk the flattened
warning sequence; a warning whose canonical form was already seen is
dropped, otherwise it is kept (first occurrence wins) and its canonical
form recorded.  Returns (final seen set, kept warnings). -/
def dedupFirst (seen : List (List (String × String))) :
    List Warning → List (List (String × String)) × List Warning
  | [] => (seen, [])
  | w :: ws =>
    let k := canonical w
    if seen.contains k then dedupFirst seen ws
    else
      let r := dedupFirst (seen ++ [k]) ws
      (r.1, w :: r.2)

end MystSession

/-! ## Theorems for the network gateway claims -/

open MystSession

/-- **C8.** For every call to `fetch`, the proxy agent is attached to the
request options iff a proxy is configured and the resolved hostname is not
one of `localhost`, `127.0.0.1`, `::1`; in particular, for a request to
`localhost` no proxy is attached (the options are passed through unchanged)
even when a proxy is configured. -/
theorem fetch_attaches_proxy_iff_nonlocal :
    (∀ p h, proxyAttached p h = true ↔
      (p.isSome = true ∧ h ∉ LOCALHOSTS)) ∧
    (∀ p h init, h ∉ LOCALHOSTS →
      fetchInit (some p) h init =
        some (("agent", FetchVal.agent p) :: init.getD [])) ∧
    (∀ p h init, h ∈ LOCALHOSTS → fetchInit (some p) h init = init) ∧
    (∀ h init, fetchInit none h init = init) ∧
    (∀ p init, fetchInit (some p) "localhost" init = init) := by
  refine ⟨?_, ?_, ?_, ?_, ?_⟩
  · intro p h
    simp [proxyAttached, List.contains_iff_exists_mem_beq]
  · intro p h init hh
    simp only [fetchInit]
    rw [if_neg]
    simpa using hh
  · intro p h init hh
    simp only [fetchInit]
    rw [if_pos]
    simpa using hh
  · intro h init
    rfl
  · intro p init
    simp only [fetchInit]
    rw [if_pos]
    decide
/-- Witness for C8 at concrete inputs. -/
theorem fetch_attaches_proxy_iff_nonlocal_witness :
    fetchInit (some 7) "example.org" (some [("method", FetchVal.other "GET")]) =
      some [("agent", FetchVal.agent 7), ("method", FetchVal.other "GET")] ∧
    fetchInit (some 7) "localhost" (some []) = some [] :=
  ⟨fetch_attaches_proxy_iff_nonlocal.2.1 7 "example.org"
      (some [("method", FetchVal.other "GET")]) (by decide),
   fetch_attaches_proxy_iff_nonlocal.2.2.2.2 7 (some [])⟩

/-- **C10.** When the proxy agent is attached, every caller-supplied key in
`init` keeps its value in the options passed to the network call (the agent
entry is prepended, and later entries win on lookup), so a caller-supplied
`agent` option takes precedence over (overwrites) the injected proxy agent;
the injected agent is only observed when the caller supplied no `agent`. -/
theorem fetch_preserves_caller_options :
    (∀ p h init (k : String) (v : FetchVal), h ∉ LOCALHOSTS →
      getOpt init k = some v →
      ∃ finalInit, fetchInit (some p) h (some init) = some finalInit ∧
        getOpt finalInit k = some v) ∧
    (∀ p h init, h ∉ LOCALHOSTS →
      getOpt init "agent" = none →
      ∃ finalInit, fetchInit (some p) h (some init) = some finalInit ∧
        getOpt finalInit "agent" = some (FetchVal.agent p)) := by
  have hmain : ∀ p h init, h ∉ LOCALHOSTS →
      fetchInit (some p) h (some init) =
        some (("agent", FetchVal.agent p) :: init) := by
    intro p h init hh
    simp only [fetchInit, Option.getD]
    rw [if_neg]
    simpa using hh
  constructor
  · intro p h init k v hh hv
    refine ⟨("agent", FetchVal.agent p) :: init, hmain p h init hh, ?_⟩
    simp [getOpt, hv]
  · intro p h init hh hnone
    refine ⟨("agent", FetchVal.agent p) :: init, hmain p h init hh, ?_⟩
    simp [getOpt, hnone]
/-- Witness for C10: a caller-supplied `agent` survives proxy injection. -/
theorem fetch_preserves_caller_options_witness :
    ∃ finalInit,
      fetchInit (some 7) "example.org" (some [("agent", FetchVal.agent 3)]) =
        some finalInit ∧
      getOpt finalInit "agent" = some (FetchVal.agent 3) :=
  fetch_preserves_caller_options.1 7 "example.org"
    [("agent", FetchVal.agent 3)] "agent" (FetchVal.agent 3)
    (by decide) (by decide)

/-- **C9 counterexample.** The claim "once the network call completes —
whether it succeeds or fails — the stall diagnostic never fires afterwards"
is false: if `nodeFetch` rejects at t = 1000ms, line 143 (`logData.done =
true`) is never reached, so the timer firing at t = 5000ms still emits the
diagnostic, after the call has already completed. -/
theorem fetch_stall_timer_counterexample :
    diagnosticEmitted ⟨1000, false⟩ = true ∧
    ¬ (stallDelay < (1000 : Nat)) := by
  decide

/-- **C9 (amended).** Only a SUCCESSFUL completion suppresses the stall
diagnostic: for a successful call the diagnostic fires iff the call is still
pending when the timer fires (settles strictly after `stallDelay`); for a
failed call the done flag is never set, so the diagnostic always fires; and
the timer never cancels or retries the call — the caller's outcome is
exactly the settled outcome of `nodeFetch`, whether or not the diagnostic
fired. -/
theorem fetch_stall_timer_amended :
    (∀ f : FetchAttempt, f.succeeds = true →
      (diagnosticEmitted f = true ↔ stallDelay < f.settleTime)) ∧
    (∀ f : FetchAttempt, f.succeeds = false → diagnosticEmitted f = true) ∧
    (∀ f : FetchAttempt, fetchOutcome f = (f.succeeds, f.settleTime)) := by
  refine ⟨?_, ?_, fun f => rfl⟩
  · intro f hs
    simp [diagnosticEmitted, doneFlagAt, hs, Nat.lt_iff_add_one_le]
  · intro f hs
    simp [diagnosticEmitted, doneFlagAt, hs]
/-- Witness for the amended C9: a success at t = 1000ms suppresses the
diagnostic. -/
theorem fetch_stall_timer_amended_witness :
    diagnosticEmitted ⟨1000, true⟩ = true ↔ stallDelay < 1000 :=
  fetch_stall_timer_amended.1 ⟨1000, true⟩ rfl

/-! ## Theorems for the memoization, acquirer, clone and disposal claims -/

/-- Helper: calls on an already-settled jupyter slot change nothing and all
return the cached promise. -/
theorem acquireN_settled (n : Nat) (s : Session) (p : Nat)
    (h : s.jupyterSlot = some p) : acquireN s n = (s, List.replicate n p) := by
  induction n generalizing s with
  | zero => simp [acquireN]
  | succ n ih =>
    simp only [acquireN, jupyterSessionManager, h]
    rw [ih s h]
    simp [List.replicate]

/-- Helper: calls on an already-settled plugin slot change nothing and all
return the cached promise. -/
theorem loadPluginsN_settled (n : Nat) (s : Session) (p : Nat)
    (h : s.pluginSlot = some p) : loadPluginsN s n = (s, List.replicate n p) := by
  induction n generalizing s with
  | zero => simp [loadPluginsN]
  | succ n ih =>
    simp only [loadPluginsN, loadPluginsCall, h]
    rw [ih s h]
    simp [List.replicate]

/-- **C1.** For each memoized slot (execution-backend acquisition via
`jupyterSessionManager`, plugin-registry construction via `loadPlugins`),
any number of sequential — and, the check-and-assign being one synchronous
step, interleaved-concurrent — calls invoke the underlying factory at most
once: on a settled slot no call re-invokes the factory and every caller
gets the cached promise; on an empty slot `n + 1` calls invoke the factory
exactly once and every caller gets the same promise. -/
theorem memoized_factory_runs_at_most_once :
    (∀ s n p, s.jupyterSlot = some p → acquireN s n = (s, List.replicate n p)) ∧
    (∀ s n, s.jupyterSlot = none →
      (acquireN s (n + 1)).1.jupyterFactoryCount = s.jupyterFactoryCount + 1 ∧
      (acquireN s (n + 1)).2 = List.replicate (n + 1) s.nextPromiseId) ∧
    (∀ s n p, s.pluginSlot = some p → loadPluginsN s n = (s, List.replicate n p)) ∧
    (∀ s n, s.pluginSlot = none →
      (loadPluginsN s (n + 1)).1.pluginFactoryCount = s.pluginFactoryCount + 1 ∧
      (loadPluginsN s (n + 1)).2 = List.replicate (n + 1) s.nextPromiseId) := by
  refine ⟨fun s n p h => acquireN_settled n s p h, ?_,
          fun s n p h => loadPluginsN_settled n s p h, ?_⟩
  · intro s n h
    simp only [acquireN, jupyterSessionManager, h]
    rw [acquireN_settled n _ s.nextPromiseId rfl]
    simp [List.replicate]
  · intro s n h
    simp only [loadPluginsN, loadPluginsCall, h]
    rw [loadPluginsN_settled n _ s.nextPromiseId rfl]
    simp [List.replicate]
/-- Witness for C1: three callers on a fresh session trigger exactly one
factory run and all observe promise 0. -/
theorem memoized_factory_runs_at_most_once_witness :
    (acquireN initSession (2 + 1)).1.jupyterFactoryCount =
      initSession.jupyterFactoryCount + 1 ∧
    (acquireN initSession (2 + 1)).2 =
      List.replicate (2 + 1) initSession.nextPromiseId :=
  memoized_factory_runs_at_most_once.2.1 initSession 2 rfl

/-- **C2.** In the remote-build strategy, the event loop terminates at the
first `ready` or `failed` event: `ready` yields settings built from exactly
that event's URL and token and (the stream being closed) no further event
is consumed; `failed` aborts the loop with the thrown error, and the
enclosing acquisition then returns `undefined` with an error logged; any
other phase is log-only and iteration continues. -/
theorem binder_loop_first_ready_or_failed :
    (∀ e rest, e.phase = "ready" →
      consumeBinderEvents (e :: rest) =
        ([e], Except.ok (some { baseUrl := some e.url, token := some e.token,
                                hasDispose := false }))) ∧
    (∀ e rest, e.phase = "failed" →
      consumeBinderEvents (e :: rest) =
        ([e], Except.error "Trying to build the repository failed")) ∧
    (∀ e rest, e.phase ≠ "ready" → e.phase ≠ "failed" →
      consumeBinderEvents (e :: rest) =
        (e :: (consumeBinderEvents rest).1, (consumeBinderEvents rest).2)) ∧
    (∀ env spec e rest, env.binderRepoSpec = some spec →
      env.binderEvents = e :: rest → e.phase = "failed" →
      createJupyterSessionManager env = (none, true)) := by
  refine ⟨?_, ?_, ?_, ?_⟩
  · intro e rest h
    simp [consumeBinderEvents, h]
  · intro e rest h
    have hne : e.phase ≠ "ready" := by rw [h]; decide
    simp [consumeBinderEvents, hne, h]
  · intro e rest h1 h2
    simp [consumeBinderEvents, h1, h2]
  · intro env spec e rest hspec hev hph
    have hne : e.phase ≠ "ready" := by rw [hph]; decide
    simp [createJupyterSessionManager, acquireSettings, hspec, hev,
          consumeBinderEvents, hne, hph]
/-- Witness for C2 at a concrete event stream. -/
theorem binder_loop_first_ready_or_failed_witness :
    consumeBinderEvents
        [⟨"ready", "server ready", "https://hub.example", "tok"⟩,
         ⟨"building", "still building", "", ""⟩] =
      ([⟨"ready", "server ready", "https://hub.example", "tok"⟩],
       Except.ok (some { baseUrl := some "https://hub.example",
                         token := some "tok", hasDispose := false })) :=
  binder_loop_first_ready_or_failed.1
    ⟨"ready", "server ready", "https://hub.example", "tok"⟩
    [⟨"building", "still building", "", ""⟩] rfl

/-- **C3.** If any stage of `createJupyterSessionManager` raises (remote
build failure, discovery or spawn rejection, malformed settings), the
exception is caught by the surrounding `try`/`catch`, an error is logged,
and the acquisition resolves successfully to `undefined`; conversely an
error is only logged when the result is `undefined`.  The function's total
return type `Option Manager × Bool` reflects that a rejection never escapes
to callers of `jupyterSessionManager`. -/
theorem acquisition_errors_never_propagate :
    (∀ env, anyStageFails env = true →
      createJupyterSessionManager env = (none, true)) ∧
    (∀ env, (createJupyterSessionManager env).2 = true →
      (createJupyterSessionManager env).1 = none) := by
  constructor
  · intro env h
    unfold anyStageFails at h
    unfold createJupyterSessionManager
    cases hs : acquireSettings env with
    | error e => rfl
    | ok ps =>
      rw [hs] at h
      simp only [] at h
      simp [h]
  · intro env
    unfold createJupyterSessionManager
    cases hs : acquireSettings env with
    | error e => intro; rfl
    | ok ps =>
      by_cases hf : env.settingsFault <;> simp [hf]
/-- Witness for C3: a spawn failure yields `(undefined, error logged)`. -/
theorem acquisition_errors_never_propagate_witness :
    createJupyterSessionManager
        { binderRepoSpec := none, binderEvents := [], jupyterBaseUrl := none,
          jupyterToken := none, findExisting := Except.ok none,
          launch := Except.error "spawn failed", settingsFault := false } =
      (none, true) :=
  acquisition_errors_never_propagate.1
    { binderRepoSpec := none, binderEvents := [], jupyterBaseUrl := none,
      jupyterToken := none, findExisting := Except.ok none,
      launch := Except.error "spawn failed", settingsFault := false } rfl

/-- **C4.** `clone()` produces a session sharing the origin's logger and
concurrency limiter by reference, with its own build-state reload from disk
(the origin's store untouched), and with the origin's execution-backend
memoization slot copied into the clone; consequently, when the origin's
backend has settled to promise `p`, the clone's `jupyterSessionManager()`
returns exactly `p` immediately, without state change and without invoking
acquisition. -/
theorem clone_shares_and_copies_slot :
    ∀ s disk,
      (clone s disk).2.loggerRef = s.loggerRef ∧
      (clone s disk).2.doiLimiterRef = s.doiLimiterRef ∧
      (clone s disk).2.storeState = disk ∧
      (clone s disk).1.storeState = s.storeState ∧
      (clone s disk).2.jupyterSlot = s.jupyterSlot ∧
      (∀ p, s.jupyterSlot = some p →
        jupyterSessionManager (clone s disk).2 = ((clone s disk).2, p)) := by
  intro s disk
  refine ⟨rfl, rfl, rfl, rfl, rfl, ?_⟩
  intro p hp
  simp [clone, jupyterSessionManager, hp]
/-- Witness for C4: cloning a session with a settled backend (promise 5)
gives a clone whose backend call resolves at once to 5. -/
theorem clone_shares_and_copies_slot_witness :
    jupyterSessionManager
        (clone { loggerRef := 1, doiLimiterRef := 2, storeState := 3,
                 jupyterSlot := some 5, nextPromiseId := 6 } 9).2 =
      ((clone { loggerRef := 1, doiLimiterRef := 2, storeState := 3,
                jupyterSlot := some 5, nextPromiseId := 6 } 9).2, 5) :=
  (clone_shares_and_copies_slot
      { loggerRef := 1, doiLimiterRef := 2, storeState := 3,
        jupyterSlot := some 5, nextPromiseId := 6 } 9).2.2.2.2.2 5 rfl

/-- **C6.** `dispose()` is idempotent and never raises (its body is a total
function): a second `dispose()` is a no-op, disposing with an empty slot
changes nothing, disposing a settled slot schedules exactly one manager
teardown and clears the slot — so two calls in sequence tear down at most
once — and releasing a manager transitively disposes the kernel manager
and the settings' own `dispose()` exactly when the session spawned (owns)
the backing server. -/
theorem dispose_idempotent_teardown_once :
    (∀ s, dispose (dispose s) = dispose s) ∧
    (∀ s, s.jupyterSlot = none → dispose s = s) ∧
    (∀ s p, s.jupyterSlot = some p →
      (dispose s).teardownCount = s.teardownCount + 1 ∧
      (dispose s).jupyterSlot = none) ∧
    (∀ s, s.teardownCount = 0 → (dispose (dispose s)).teardownCount ≤ 1) ∧
    (∀ m, (disposeManager m).1 = true ∧
      ((disposeManager m).2 = true ↔
        ∃ ps, m.settings = some ps ∧ ps.hasDispose = true)) := by
  have hnone : ∀ s : Session, s.jupyterSlot = none → dispose s = s := by
    intro s h
    simp [dispose, h]
  have hsome : ∀ (s : Session) p, s.jupyterSlot = some p →
      (dispose s).teardownCount = s.teardownCount + 1 ∧
      (dispose s).jupyterSlot = none := by
    intro s p h
    simp [dispose, h]
  have hslot : ∀ s : Session, (dispose s).jupyterSlot = none := by
    intro s
    cases h : s.jupyterSlot with
    | none => rw [hnone s h]; exact h
    | some p => exact (hsome s p h).2
  refine ⟨fun s => hnone _ (hslot s), hnone, hsome, ?_, ?_⟩
  · intro s h0
    rw [hnone _ (hslot s)]
    cases h : s.jupyterSlot with
    | none => rw [hnone s h]; omega
    | some p => rw [(hsome s p h).1]; omega
  · intro m
    refine ⟨rfl, ?_⟩
    cases h : m.settings with
    | none => simp [disposeManager, h]
    | some ps => simp [disposeManager, h]
/-- Witness for C6: on a session with a settled slot and no prior teardown,
double disposal tears down exactly once. -/
theorem dispose_idempotent_teardown_once_witness :
    (dispose (dispose { loggerRef := 0, doiLimiterRef := 0, storeState := 0,
                        jupyterSlot := some 0,
                        nextPromiseId := 1 })).teardownCount ≤ 1 :=
  dispose_idempotent_teardown_once.2.2.2.1
    { loggerRef := 0, doiLimiterRef := 0, storeState := 0,
      jupyterSlot := some 0, nextPromiseId := 1 } rfl

/-- **C7 counterexample.** The claim "once the slot has settled, no
operation on the session ever causes acquisition to run again" is false:
`dispose()` clears `_jupyterSessionManagerPromise` (line 276), so a
`jupyterSessionManager()` call after a dispose finds the slot empty and
invokes `createJupyterSessionManager` a second time — here the trace
acquire; dispose; acquire reaches a factory count of 2. -/
theorem reacquire_after_dispose_counterexample :
    (runOps initSession [SessionOp.acquire]).jupyterSlot = some 0 ∧
    (runOps initSession [SessionOp.acquire]).jupyterFactoryCount = 1 ∧
    (runOps initSession
        [SessionOp.acquire, SessionOp.disposeOp,
         SessionOp.acquire]).jupyterFactoryCount = 2 := by
  decide

/-- **C7 (amended).** The invariant holds for every operation sequence free
of `dispose()`: once the slot has settled to promise `p`, any sequence of
`jupyterSessionManager()` and `clone()` calls leaves the slot at `p` and
never re-invokes `createJupyterSessionManager`; acquisition can only re-run
after a `dispose()` has cleared the slot. -/
theorem settled_slot_never_reacquires_without_dispose :
    ∀ ops (s : Session) p, s.jupyterSlot = some p →
      (∀ op ∈ ops, op ≠ SessionOp.disposeOp) →
      (runOps s ops).jupyterFactoryCount = s.jupyterFactoryCount ∧
      (runOps s ops).jupyterSlot = some p := by
  intro ops
  induction ops with
  | nil => intro s p h _; exact ⟨rfl, h⟩
  | cons op rest ih =>
    intro s p h hops
    have hop := hops op (List.mem_cons_self op rest)
    have hrest : ∀ o ∈ rest, o ≠ SessionOp.disposeOp :=
      fun o ho => hops o (List.mem_cons_of_mem op ho)
    cases op with
    | acquire =>
      have hstep : applyOp s SessionOp.acquire = s := by
        simp [applyOp, jupyterSessionManager, h]
      simpa [runOps, hstep] using ih s p h hrest
    | cloneOp d =>
      have hslot : (applyOp s (SessionOp.cloneOp d)).jupyterSlot = some p := by
        simpa [applyOp, clone] using h
      have hcount : (applyOp s (SessionOp.cloneOp d)).jupyterFactoryCount =
          s.jupyterFactoryCount := by
        simp [applyOp, clone]
      have := ih (applyOp s (SessionOp.cloneOp d)) p hslot hrest
      simpa [runOps, hcount] using this
    | disposeOp => exact absurd rfl hop
/-- Witness for the amended C7: acquire-clone-acquire on a settled session
leaves the factory count unchanged. -/
theorem settled_slot_never_reacquires_without_dispose_witness :
    (runOps { loggerRef := 0, doiLimiterRef := 0, storeState := 0,
              jupyterSlot := some 0, jupyterFactoryCount := 1,
              nextPromiseId := 1 }
        [SessionOp.acquire, SessionOp.cloneOp 4,
         SessionOp.acquire]).jupyterFactoryCount = 1 ∧
    (runOps { loggerRef := 0, doiLimiterRef := 0, storeState := 0,
              jupyterSlot := some 0, jupyterFactoryCount := 1,
              nextPromiseId := 1 }
        [SessionOp.acquire, SessionOp.cloneOp 4,
         SessionOp.acquire]).jupyterSlot = some 0 :=
  settled_slot_never_reacquires_without_dispose
    [SessionOp.acquire, SessionOp.cloneOp 4, SessionOp.acquire]
    { loggerRef := 0, doiLimiterRef := 0, storeState := 0,
      jupyterSlot := some 0, jupyterFactoryCount := 1, nextPromiseId := 1 }
    0 rfl (by decide)

/-! ## Theorems for the warning-aggregation claim -/

/-- Helper: the inner `forEach` fold is the reference dedup on one
session's warning list, relative to the accumulated seen set and output. -/
theorem foldl_warnStep_eq_dedupFirst (ws : List Warning)
    (seen : List (List (String × String))) (out : List Warning) :
    ws.foldl warnStep (seen, out) =
      ((dedupFirst seen ws).1, out ++ (dedupFirst seen ws).2) := by
  induction ws generalizing seen out with
  | nil => simp [dedupFirst]
  | cons w ws ih =>
    simp only [List.foldl_cons, warnStep, dedupFirst]
    by_cases h : seen.contains (canonical w)
    · simp only [h, if_true]
      exact ih seen out
    · simp only [h, Bool.false_eq_true, if_false]
      rw [ih (seen ++ [canonical w]) (out ++ [w])]
      simp

/-- Helper: the reference dedup splits over list append. -/
theorem dedupFirst_append (xs ys : List Warning)
    (seen : List (List (String × String))) :
    dedupFirst seen (xs ++ ys) =
      ((dedupFirst (dedupFirst seen xs).1 ys).1,
       (dedupFirst seen xs).2 ++ (dedupFirst (dedupFirst seen xs).1 ys).2) := by
  induction xs generalizing seen with
  | nil => simp [dedupFirst]
  | cons x xs ih =>
    simp only [List.cons_append, dedupFirst]
    by_cases h : seen.contains (canonical x)
    · simp only [h, if_true]
      exact ih seen
    · simp only [h, Bool.false_eq_true, if_false, List.append_eq]
      rw [ih (seen ++ [canonical x])]
      simp

/-- **C5.** `getAllWarnings` returns the warnings of the origin and all
recorded clones with structural duplicates removed: the output equals the
keep-first dedup of the flattened sequence (origin first, then clones in
registration order, each session's native order preserved); two warnings
are duplicates exactly when their sorted field/value entry lists coincide
(in a two-session hierarchy the structural duplicate is dropped and a
distinct warning is kept); and for an origin with no warnings plus two
clones each reporting the same warning — even with fields in a different
insertion order — and one clone reporting a distinct warning, exactly the
two distinct entries are returned, first occurrences first. -/
theorem getAllWarnings_dedups_across_hierarchy :
    (∀ sws : List (List Warning),
      getAllWarnings sws = (dedupFirst [] sws.flatten).2) ∧
    (∀ w w' : Warning, canonical w = canonical w' →
      getAllWarnings [[w], [w']] = [w]) ∧
    (∀ w w' : Warning, canonical w ≠ canonical w' →
      getAllWarnings [[w], [w']] = [w, w']) ∧
    getAllWarnings
        [[],
         [[("ruleId", "r1"), ("message", "m"), ("file", "f")]],
         [[("message", "m"), ("file", "f"), ("ruleId", "r1")],
          [("ruleId", "r1"), ("message", "other"), ("file", "f")]]] =
      [[("ruleId", "r1"), ("message", "m"), ("file", "f")],
       [("ruleId", "r1"), ("message", "other"), ("file", "f")]] := by
  have hmain : ∀ sws : List (List Warning),
      getAllWarnings sws = (dedupFirst [] sws.flatten).2 := by
    intro sws
    unfold getAllWarnings
    suffices h : ∀ (seen : List (List (String × String))) (out : List Warning),
        sws.foldl (fun acc ws => ws.foldl warnStep acc) (seen, out) =
          ((dedupFirst seen sws.flatten).1,
           out ++ (dedupFirst seen sws.flatten).2) by
      rw [h [] []]
      simp
    induction sws with
    | nil => intro seen out; simp [dedupFirst]
    | cons ws rest ih =>
      intro seen out
      simp only [List.foldl_cons, List.flatten_cons]
      rw [foldl_warnStep_eq_dedupFirst, ih, dedupFirst_append]
      simp
  refine ⟨hmain, ?_, ?_, ?_⟩
  · intro w w' h
    simp [getAllWarnings, warnStep, h]
  · intro w w' h
    simp [getAllWarnings, warnStep, Ne.symm h]
  · decide
/-- Witness for C5: a structural duplicate (same entries, different
insertion order) is dropped, keeping the first occurrence. -/
theorem getAllWarnings_dedups_across_hierarchy_witness :
    getAllWarnings
        [[[("ruleId", "r1"), ("file", "f")]],
         [[("file", "f"), ("ruleId", "r1")]]] =
      [[("ruleId", "r1"), ("file", "f")]] :=
  getAllWarnings_dedups_across_hierarchy.2.1
    [("ruleId", "r1"), ("file", "f")]
    [("file", "f"), ("ruleId", "r1")] (by decide)
